import Mathlib

set_option autoImplicit false

/-!
Shallow embedding of `src/grade_storage.py` from the atlas-ois-tracker
repository: the snapshot store (`GradeStorage.load` / `GradeStorage.save`),
the diff engine (`GradeStorage.compare_and_update`) and the full-listing
renderer (`format_full_grades`).

Modeling conventions, chosen to track CPython semantics:

* A Python dict is an association list in insertion order; any dict built
  by Python has pairwise distinct keys (stated as a `Nodup` hypothesis
  where a theorem needs it).
* `d.get(k)` returns `None` both when the key is absent and when it is
  stored with value `None`, while `d.get(k, default)` distinguishes them.
  Record fields that the source ever reads with a default are therefore
  modeled as `Option (Option _)`: `none` = key absent, `some none` = key
  present holding `None`, `some (some v)` = key present holding `v`.
  Plain `.get` is `Option.join`; `.get(k, d)` is `Option.getD · (some d)`.
* Numeric scores and weights are modeled as `Int`: the source only ever
  compares them for equality and prints them.
* The grades file is modeled by `FileState`; JSON (de)serialization is
  modeled as the identity on document trees, which is exact for the value
  domain the store writes (string-keyed objects of strings, numbers,
  nulls and arrays).
-/

/-- A grade component dict as built by the scraper:
`("name", "weight", "score", "date")`. The fields `name` and `score` are
read with a default in `format_full_grades` (`comp.get("name", "Sınav")`,
`comp.get("score", "—")`), so they keep both `Option` levels; `weight`
and `date` are only ever read by plain `.get`, which collapses the two
levels, so they are modeled already collapsed. -/
structure Component where
  name : Option (Option String)
  weight : Option Int
  score : Option (Option Int)
  date : Option String
deriving DecidableEq, Repr

/-- A course record dict: `("name", "letter_grade", "success_score",
"components")`. The first three are read with defaults in
`format_full_grades` and `get_summary`, so they keep both `Option`
levels. The `components` field is modeled as a plain list: a present
`"components"` key holding `None` would crash the Python source on
iteration, and `course_data.get("components", [])` maps an absent key
to `[]` just as the empty list models it. -/
structure Course where
  name : Option (Option String)
  letter_grade : Option (Option String)
  success_score : Option (Option Int)
  components : List Component
deriving DecidableEq, Repr

/-- A snapshot collection: the JSON-object document mapping course code
to course record, in insertion order. -/
abbrev Grades : Type := List (String × Course)

/-- The course record whose every key is absent: `old_grades.get(course_code, {})`
falls back to the empty dict `\x7b\x7d`, on which every `.get` yields the
default. -/
def emptyCourse : Course := ⟨none, none, none, []⟩

/-- Python dict lookup `grades.get(code)`: the entry stored for `code`
(dicts built by Python hold at most one). On an association list this is
the first binding. -/
def lookupCourse (grades : Grades) (code : String) : Option Course :=
  (List.find? (fun p => p.1 == code) grades).map Prod.snd

/-- Python truthiness of an optional string: `None` and `""` are falsy. -/
def pyTruthyStr : Option String → Bool
  | none => false
  | some s => !(s == "")

/-- Python truthiness of an optional integer: `None` and `0` are falsy. -/
def pyTruthyInt : Option Int → Bool
  | none => false
  | some n => !(n == 0)

/-- A change dict appended to `changes` by `compare_and_update`, one
constructor per `"type"` value. Field order follows the source dict
literals. -/
inductive Change where
  | letter_grade (course_code : String) (course_name : Option String)
      (old_value : Option String) (new_value : Option String)
      (success_score : Option Int)
  | new_score (course_code : String) (course_name : Option String)
      (component : Option String) (weight : Option Int)
      (score : Option Int) (date : Option String)
  | score_change (course_code : String) (course_name : Option String)
      (component : Option String) (weight : Option Int)
      (old_score : Option Int) (new_score : Option Int) (date : Option String)
deriving DecidableEq, Repr

/-- The `"course_code"` field every change dict carries. -/
def Change.course_code : Change → String
  | Change.letter_grade c _ _ _ _ => c
  | Change.new_score c _ _ _ _ _ => c
  | Change.score_change c _ _ _ _ _ _ => c

/-- The `"course_name"` field every change dict carries. -/
def Change.course_name : Change → Option String
  | Change.letter_grade _ n _ _ _ => n
  | Change.new_score _ n _ _ _ _ => n
  | Change.score_change _ n _ _ _ _ _ => n

/-- Whether a change dict has `"type": "letter_grade"`. -/
def Change.isLetterEvent : Change → Bool
  | Change.letter_grade _ _ _ _ _ => true
  | _ => false

/-- Whether a change dict is a component event (`"new_score"` or
`"score_change"`). -/
def Change.isComponentEvent : Change → Bool
  | Change.letter_grade _ _ _ _ _ => false
  | _ => true

namespace GradeStorage

/-- The identity key `(c.get("name"), c.get("weight"))` used for the
`old_component_map` dict comprehension and its lookups. -/
def componentKey (c : Component) : Option String × Option Int :=
  (c.name.join, c.weight)

/-- The dict comprehension
`\x7b(c.get("name"), c.get("weight")): c for c in old_components\x7d`
followed by `.get(key)`: later list entries overwrite earlier ones with
the same key, so lookup returns the last match. -/
def oldComponentMap (old_components : List Component)
    (key : Option String × Option Int) : Option Component :=
  old_components.foldl
    (fun acc c => if componentKey c = key then some c else acc) none

/-- Lines 51-63 of `grade_storage.py`: the letter-grade check for one
course of `new_grades`. Note the Python guard `if new_letter and ...`
tests truthiness, so an empty-string letter grade is skipped like `None`. -/
def letterChanges (course_code : String) (course_data old_course : Course) :
    List Change :=
  let new_letter := course_data.letter_grade.join
  let old_letter := old_course.letter_grade.join
  if pyTruthyStr new_letter ∧ new_letter ≠ old_letter then
    [Change.letter_grade course_code (course_data.name.getD (some ""))
      old_letter new_letter course_data.success_score.join]
  else []

/-- Lines 75-101 of `grade_storage.py`: the per-component check for one
entry of the new course's component list. -/
def componentChanges (course_code : String) (course_name : Option String)
    (old_components : List Component) (component : Component) : List Change :=
  match oldComponentMap old_components (componentKey component) with
  | none =>
      [Change.new_score course_code course_name component.name.join
        component.weight component.score.join component.date]
  | some old_component =>
      if component.score.join ≠ old_component.score.join then
        [Change.score_change course_code course_name component.name.join
          component.weight old_component.score.join component.score.join
          component.date]
      else []

/-- Lines 48-101 of `grade_storage.py`: the changes contributed by a
single `(course_code, course_data)` item of `new_grades.items()`. -/
def courseChanges (old_grades : Grades) (course_code : String)
    (course_data : Course) : List Change :=
  let old_course := (lookupCourse old_grades course_code).getD emptyCourse
  letterChanges course_code course_data old_course ++
    (course_data.components.map
      (componentChanges course_code (course_data.name.getD (some ""))
        old_course.components)).flatten

/-- The pure diff of `compare_and_update`: the full `changes` list built
by iterating `new_grades.items()` against the stored `old_grades`. -/
def compareChanges (old_grades new_grades : Grades) : List Change :=
  (new_grades.map (fun p => courseChanges old_grades p.1 p.2)).flatten

/-- The top-level JSON value `json.load` can hand back from the grades
file. `vdict` is an object document (a snapshot collection); `vnull` is
the document `null`, which parses fine yet is not a collection. This
two-constructor fragment suffices for the properties studied here. -/
inductive PyVal where
  | vdict (grades : Grades)
  | vnull
deriving DecidableEq

/-- The durable state of the grades file: absent, present but not valid
JSON (empty, truncated or garbled — `json.load` raises
`json.JSONDecodeError`), or present holding a valid JSON document. -/
inductive FileState where
  | missing
  | invalid
  | valid (document : PyVal)
deriving DecidableEq

/-- Lines 22-28 of `grade_storage.py`: `load` returns `\x7b\x7d` when
`open` raises `FileNotFoundError` or `json.load` raises
`json.JSONDecodeError`, and otherwise returns whatever document
`json.load` parsed, unchanged. -/
def load : FileState → PyVal
  | FileState.missing => PyVal.vdict []
  | FileState.invalid => PyVal.vdict []
  | FileState.valid v => v

/-- Lines 30-33 of `grade_storage.py`: the file state after `save`
returns normally — the file holds the JSON serialization of `grades`. -/
def save (grades : Grades) : FileState :=
  FileState.valid (PyVal.vdict grades)

/-- The file states observable while `save(grades)` runs: `save` opens
the existing file with mode `"w"`, which immediately truncates it to
zero bytes, then `json.dump` streams the serialized document into it.
A reader (or a crash) between the truncation and the completed write
finds an empty or partial JSON text — a proper prefix of a serialized
object is never valid JSON, so that intermediate state is
`FileState.invalid`. The final element is the completed write. -/
def saveObservableStates (grades : Grades) : List FileState :=
  [FileState.invalid, save grades]

/-- Lines 35-106 of `grade_storage.py` on the normal path (the stored
file holds an object document, so `self.load()` returns a dict): the
returned `changes` list together with the grades collection persisted by
the unconditional `self.save(new_grades)` at line 104. -/
def compare_and_update (stored new_grades : Grades) : List Change × Grades :=
  (compareChanges stored new_grades, new_grades)

end GradeStorage

/-- Python `str` applied to the result of a `.get` that may be `None`:
`str(None)` is `"None"`. -/
def pyStr : Option String → String
  | none => "None"
  | some s => s

/-- How `format_full_grades` displays `data.get("success_score", "—")`
and `comp.get("score", "—")` inside an f-string: the dash default when
the key is absent, `str(None)` when it holds `None`, the number
otherwise. -/
def scoreCell : Option (Option Int) → String
  | none => "—"
  | some none => "None"
  | some (some n) => toString n

/-- Line 222 of `grade_storage.py`:
`f"%\x7bcomp.get('weight')\x7d" if comp.get("weight") else ""` —
truthiness, so a `None` or zero weight renders empty. -/
def weightCell (weight : Option Int) : String :=
  if pyTruthyInt weight then "%" ++ toString (weight.getD 0) else ""

/-- Lines 220-226 of `grade_storage.py`: one rendered component line
`"   • name weight: *score*"`. -/
def componentLine (comp : Component) : String :=
  "   • " ++ pyStr (comp.name.getD (some "Sınav")) ++ " "
    ++ weightCell comp.weight ++ ": *" ++ scoreCell comp.score ++ "*"

/-- Lines 203-228 of `grade_storage.py`: the lines appended for one
`(code, data)` item of `grades.items()` — header, then the grade line
when `letter != "—" or score != "—"` (where `letter` is
`data.get("letter_grade", "—")` and `score` is
`data.get("success_score", "—")`, so a key stored with `None` passes the
test), then one line per component, then the blank separator. -/
def courseLines (code : String) (data : Course) : List String :=
  let letter := data.letter_grade.getD (some "—")
  ("📚 *" ++ pyStr (data.name.getD (some code)) ++ "*") ::
    (if letter ≠ some "—" ∨ data.success_score.isSome then
      ["   Not: *" ++ pyStr letter ++ "* (" ++ scoreCell data.success_score ++ ")"]
    else []) ++ data.components.map componentLine ++ [""]

/-- Python `str.strip()`: drop leading and trailing whitespace (here it
only ever removes the trailing newline left by the final blank
separator). -/
def pyStrip (s : String) : String :=
  ⟨((s.data.dropWhile Char.isWhitespace).reverse.dropWhile
      Char.isWhitespace).reverse⟩

/-- Lines 196-230 of `grade_storage.py`: `format_full_grades`. -/
def format_full_grades (grades : Grades) : String :=
  if grades = [] then "📭 Henüz kayıtlı not yok."
  else
    pyStrip (String.intercalate "\n"
      ("📊 *Güncel Not Durumu*\n" ::
        (grades.map (fun p => courseLines p.1 p.2)).flatten))

/-! ### Helper lemmas -/

/-- Python truthiness of an optional string, spelled out. -/
theorem pyTruthyStr_iff (o : Option String) :
    pyTruthyStr o = true ↔ o ≠ none ∧ o ≠ some "" := by
  cases o with
  | none => simp [pyTruthyStr]
  | some s => simp [pyTruthyStr]

/-- Every change produced by the letter-grade check carries the course
code and name of the new course item that produced it, and has type
`"letter_grade"`. -/
theorem mem_letterChanges {e : Change} {c : String} {cd oc : Course}
    (h : e ∈ GradeStorage.letterChanges c cd oc) :
    e.course_code = c ∧ e.course_name = cd.name.getD (some "") ∧
      e.isLetterEvent = true := by
  simp only [GradeStorage.letterChanges] at h
  split at h
  · rcases List.mem_singleton.mp h with rfl
    exact ⟨rfl, rfl, rfl⟩
  · cases h

/-- Every change produced by the per-component check carries the course
code and name passed to it, and is a component event. -/
theorem mem_componentChanges {e : Change} {c : String} {n : Option String}
    {olds : List Component} {comp : Component}
    (h : e ∈ GradeStorage.componentChanges c n olds comp) :
    e.course_code = c ∧ e.course_name = n ∧ e.isComponentEvent = true := by
  simp only [GradeStorage.componentChanges] at h
  split at h
  · rcases List.mem_singleton.mp h with rfl
    exact ⟨rfl, rfl, rfl⟩
  · split at h
    · rcases List.mem_singleton.mp h with rfl
      exact ⟨rfl, rfl, rfl⟩
    · cases h

/-- Every change contributed by one item of `new_grades.items()` carries
that item's course code and the name read from that item's record. -/
theorem mem_courseChanges {e : Change} {old : Grades} {c : String} {cd : Course}
    (h : e ∈ GradeStorage.courseChanges old c cd) :
    e.course_code = c ∧ e.course_name = cd.name.getD (some "") := by
  simp only [GradeStorage.courseChanges] at h
  rcases List.mem_append.mp h with hl | hr
  · exact ⟨(mem_letterChanges hl).1, (mem_letterChanges hl).2.1⟩
  · obtain ⟨l, hl, hel⟩ := List.mem_flatten.mp hr
    obtain ⟨comp, _, rfl⟩ := List.mem_map.mp hl
    exact ⟨(mem_componentChanges hel).1, (mem_componentChanges hel).2.1⟩

/-- Every change in the full diff comes from some item of the new
snapshot and carries that item's code and name. -/
theorem mem_compareChanges {e : Change} {old new_grades : Grades}
    (h : e ∈ GradeStorage.compareChanges old new_grades) :
    ∃ p ∈ new_grades, e.course_code = p.1 ∧
      e.course_name = p.2.name.getD (some "") := by
  simp only [GradeStorage.compareChanges] at h
  obtain ⟨l, hl, hel⟩ := List.mem_flatten.mp h
  obtain ⟨p, hp, rfl⟩ := List.mem_map.mp hl
  exact ⟨p, hp, mem_courseChanges hel⟩

/-! ### Claims -/

/-- C10: every event returned by `compare_and_update(new_grades)` carries
a `course_code` that is a key of `new_grades`, and its `course_name` is
read from that course's record in the new snapshot (never from the old
stored state). -/
theorem compare_and_update_events_reference_new_snapshot
    (stored new_grades : Grades) (e : Change)
    (he : e ∈ (GradeStorage.compare_and_update stored new_grades).1) :
    ∃ p ∈ new_grades, e.course_code = p.1 ∧
      e.course_name = p.2.name.getD (some "") := by
  have he' : e ∈ GradeStorage.compareChanges stored new_grades := he
  exact mem_compareChanges he'

/-- Witness for C10 at a concrete input: diffing one new course with a
letter grade against an empty stored state produces an event, and the
theorem locates it in the new snapshot. -/
theorem compare_and_update_events_reference_new_snapshot_witness :
    ∃ p ∈ ([("C1", ⟨some (some "Calc"), some (some "A"), some (some 92),
        [⟨some (some "Midterm"), some 40, some (some 85), none⟩]⟩)] : Grades),
      (Change.letter_grade "C1" (some "Calc") none (some "A")
        (some 92)).course_code = p.1 ∧
      (Change.letter_grade "C1" (some "Calc") none (some "A")
        (some 92)).course_name = p.2.name.getD (some "") :=
  compare_and_update_events_reference_new_snapshot []
    [("C1", ⟨some (some "Calc"), some (some "A"), some (some 92),
      [⟨some (some "Midterm"), some 40, some (some 85), none⟩]⟩)]
    (Change.letter_grade "C1" (some "Calc") none (some "A") (some 92))
    (by decide)

/-- C5: when the new snapshot omits a course code present in the old
state, `compare_and_update` emits no event for that course, and the
persisted state after the call is exactly the new snapshot, full
replacement happening unconditionally. -/
theorem compare_and_update_omitted_course
    (stored new_grades : Grades) (code : String)
    (habs : ∀ p ∈ new_grades, p.1 ≠ code) :
    (∀ e ∈ (GradeStorage.compare_and_update stored new_grades).1,
      e.course_code ≠ code) ∧
    (GradeStorage.compare_and_update stored new_grades).2 = new_grades := by
  refine ⟨?_, rfl⟩
  intro e he
  have he' : e ∈ GradeStorage.compareChanges stored new_grades := he
  obtain ⟨p, hp, hc, _⟩ := mem_compareChanges he'
  rw [hc]
  exact habs p hp

/-- Witness for C5 at a concrete input: old state holds course `"C2"`,
the new snapshot omits it; no event mentions `"C2"` and the persisted
state is the new snapshot. -/
theorem compare_and_update_omitted_course_witness :
    (∀ p ∈ ([("C3", ⟨some (some "Phys"), some (some "B"), none, []⟩)] : Grades),
      p.1 ≠ "C2") ∧
    ((∀ e ∈ (GradeStorage.compare_and_update
        [("C2", ⟨some (some "Chem"), some (some "A"), none, []⟩)]
        [("C3", ⟨some (some "Phys"), some (some "B"), none, []⟩)]).1,
      e.course_code ≠ "C2") ∧
    (GradeStorage.compare_and_update
        [("C2", ⟨some (some "Chem"), some (some "A"), none, []⟩)]
        [("C3", ⟨some (some "Phys"), some (some "B"), none, []⟩)]).2 =
      [("C3", ⟨some (some "Phys"), some (some "B"), none, []⟩)]) :=
  ⟨by decide,
    compare_and_update_omitted_course
      [("C2", ⟨some (some "Chem"), some (some "A"), none, []⟩)]
      [("C3", ⟨some (some "Phys"), some (some "B"), none, []⟩)]
      "C2" (by decide)⟩

/-- On a collection with pairwise distinct keys (every dict Python ever
builds), looking up the code of a stored item returns that item's record. -/
theorem lookupCourse_self {S : Grades} (hkeys : (S.map Prod.fst).Nodup)
    {p : String × Course} (hp : p ∈ S) : lookupCourse S p.1 = some p.2 := by
  induction S with
  | nil => cases hp
  | cons q T ih =>
    rw [List.map_cons, List.nodup_cons] at hkeys
    rcases List.mem_cons.mp hp with rfl | hpT
    · simp [lookupCourse]
    · have hne : ¬(q.1 == p.1) = true := by
        intro hqp
        exact hkeys.1 (beq_iff_eq.mp hqp ▸ List.mem_map.mpr ⟨p, hpT, rfl⟩)
      have hqf : (q.1 == p.1) = false := by
        simpa using hne
      have ihv := ih hkeys.2 hpT
      simp only [lookupCourse, List.find?_cons, hqf] at ihv ⊢
      exact ihv

/-- The component map lookup on a list extended on the right: the last
binding for a key wins, exactly as in the Python dict comprehension. -/
theorem oldComponentMap_append (l : List Component) (c : Component)
    (k : Option String × Option Int) :
    GradeStorage.oldComponentMap (l ++ [c]) k =
      if GradeStorage.componentKey c = k then some c
      else GradeStorage.oldComponentMap l k := by
  simp only [GradeStorage.oldComponentMap, List.foldl_append, List.foldl_cons,
    List.foldl_nil]

/-- When the component keys of a list are pairwise distinct, the map
lookup at a stored component's own key returns that component. -/
theorem oldComponentMap_self {l : List Component}
    (hnd : (l.map GradeStorage.componentKey).Nodup)
    {c : Component} (hc : c ∈ l) :
    GradeStorage.oldComponentMap l (GradeStorage.componentKey c) = some c := by
  induction l using List.reverseRecOn with
  | nil => cases hc
  | append_singleton T d ih =>
    rw [List.map_append, List.nodup_append] at hnd
    rw [oldComponentMap_append]
    rcases List.mem_append.mp hc with hcT | hcd
    · rw [if_neg ?_]
      · exact ih hnd.1 hcT
      · intro he
        exact hnd.2.2 (List.mem_map.mpr ⟨c, hcT, rfl⟩) (by simp [he])
    · rcases List.mem_singleton.mp hcd with rfl
      simp

/-- Diffing a snapshot against itself yields no change, provided course
codes are pairwise distinct (always true of a Python dict) and each
course's component identity keys are pairwise distinct (the documented
precondition on the scraper's output). -/
theorem compareChanges_self_eq_nil (S : Grades)
    (hkeys : (S.map Prod.fst).Nodup)
    (hcomps : ∀ p ∈ S, (p.2.components.map GradeStorage.componentKey).Nodup) :
    GradeStorage.compareChanges S S = [] := by
  simp only [GradeStorage.compareChanges, List.flatten_eq_nil_iff]
  intro block hb
  obtain ⟨p, hp, rfl⟩ := List.mem_map.mp hb
  simp only [GradeStorage.courseChanges, lookupCourse_self hkeys hp,
    Option.getD_some]
  rw [List.append_eq_nil]
  constructor
  · simp [GradeStorage.letterChanges]
  · rw [List.flatten_eq_nil_iff]
    intro blk hblk
    obtain ⟨comp, hcm, rfl⟩ := List.mem_map.mp hblk
    simp only [GradeStorage.componentChanges,
      oldComponentMap_self (hcomps p hp) hcm]
    simp

/-- C6 counterexample: the claim quantifies over every snapshot, but a
snapshot whose course stores two components with the same
`(name, weight)` identity key — input the spec elsewhere declares the
scraper must disambiguate — defeats it: the dict comprehension keeps only
the last component per key, so on the second identical call the first
duplicate compares against the second one's score and a `score_change`
event is emitted. -/
theorem compare_and_update_second_call_not_empty :
    (GradeStorage.compare_and_update
        (GradeStorage.compare_and_update []
          [("C1", ⟨none, none, none,
            [⟨some (some "Quiz"), some 10, some (some 1), none⟩,
             ⟨some (some "Quiz"), some 10, some (some 2), none⟩]⟩)]).2
        [("C1", ⟨none, none, none,
          [⟨some (some "Quiz"), some 10, some (some 1), none⟩,
           ⟨some (some "Quiz"), some 10, some (some 2), none⟩]⟩)]).1 =
      [Change.score_change "C1" (some "") (some "Quiz") (some 10)
        (some 2) (some 1) none] := by
  decide

/-- C6 (amended): for every snapshot whose course codes are pairwise
distinct (true of every Python dict) and whose courses each carry
pairwise distinct component `(name, weight)` keys (the spec's documented
precondition on scraper output), calling `compare_and_update` twice with
the identical snapshot produces an empty event list on the second call. -/
theorem compare_and_update_idempotent (stored S : Grades)
    (hkeys : (S.map Prod.fst).Nodup)
    (hcomps : ∀ p ∈ S, (p.2.components.map GradeStorage.componentKey).Nodup) :
    (GradeStorage.compare_and_update
      (GradeStorage.compare_and_update stored S).2 S).1 = [] := by
  show GradeStorage.compareChanges S S = []
  exact compareChanges_self_eq_nil S hkeys hcomps

/-- Witness for the amended C6 at a concrete input. -/
theorem compare_and_update_idempotent_witness :
    ((([("C1", ⟨some (some "Calc"), some (some "A"), some (some 92),
          [⟨some (some "Midterm"), some 40, some (some 85), none⟩]⟩)] :
        Grades).map Prod.fst).Nodup ∧
      (∀ p ∈ ([("C1", ⟨some (some "Calc"), some (some "A"), some (some 92),
          [⟨some (some "Midterm"), some 40, some (some 85), none⟩]⟩)] :
        Grades), (p.2.components.map GradeStorage.componentKey).Nodup)) ∧
    (GradeStorage.compare_and_update
      (GradeStorage.compare_and_update []
        [("C1", ⟨some (some "Calc"), some (some "A"), some (some 92),
          [⟨some (some "Midterm"), some 40, some (some 85), none⟩]⟩)]).2
      [("C1", ⟨some (some "Calc"), some (some "A"), some (some 92),
        [⟨some (some "Midterm"), some 40, some (some 85), none⟩]⟩)]).1 = [] :=
  ⟨⟨by decide, by decide⟩,
    compare_and_update_idempotent []
      [("C1", ⟨some (some "Calc"), some (some "A"), some (some 92),
        [⟨some (some "Midterm"), some 40, some (some 85), none⟩]⟩)]
      (by decide) (by decide)⟩

/-- C4: for each component of a new course's list, the diff looks up its
`(name, weight)` key in the old course's component map and emits exactly
one `new_score` event when absent, exactly one `score_change` event
carrying old and new scores when present with a different score, and
nothing when present with the same score; concretely, the same key with
scores 70 then 75 across two snapshots yields exactly one `score_change`
event with old 70 and new 75. -/
theorem componentChanges_case_analysis :
    (∀ (code : String) (n : Option String) (olds : List Component)
        (comp : Component),
      GradeStorage.oldComponentMap olds (GradeStorage.componentKey comp) =
          none →
        GradeStorage.componentChanges code n olds comp =
          [Change.new_score code n comp.name.join comp.weight
            comp.score.join comp.date]) ∧
    (∀ (code : String) (n : Option String) (olds : List Component)
        (comp oldc : Component),
      GradeStorage.oldComponentMap olds (GradeStorage.componentKey comp) =
          some oldc →
        (comp.score.join ≠ oldc.score.join →
          GradeStorage.componentChanges code n olds comp =
            [Change.score_change code n comp.name.join comp.weight
              oldc.score.join comp.score.join comp.date]) ∧
        (comp.score.join = oldc.score.join →
          GradeStorage.componentChanges code n olds comp = [])) ∧
    ((GradeStorage.compare_and_update
        (GradeStorage.compare_and_update []
          [("C1", ⟨none, none, none,
            [⟨some (some "Quiz"), some 10, some (some 70), none⟩]⟩)]).2
        [("C1", ⟨none, none, none,
          [⟨some (some "Quiz"), some 10, some (some 75), none⟩]⟩)]).1 =
      [Change.score_change "C1" (some "") (some "Quiz") (some 10)
        (some 70) (some 75) none]) := by
  refine ⟨?_, ?_, by decide⟩
  · intro code n olds comp h
    simp only [GradeStorage.componentChanges, h]
  · intro code n olds comp oldc h
    constructor
    · intro hne
      simp only [GradeStorage.componentChanges, h, if_pos hne]
    · intro heq
      simp only [GradeStorage.componentChanges, h, heq]
      simp

/-- Witness for C4 at concrete inputs: one instance of each of the three
cases of the per-component analysis. -/
theorem componentChanges_case_analysis_witness :
    (GradeStorage.componentChanges "C" (some "N") []
        ⟨some (some "Quiz"), some 10, some (some 75), none⟩ =
      [Change.new_score "C" (some "N") (some "Quiz") (some 10)
        (some 75) none]) ∧
    (GradeStorage.componentChanges "C" (some "N")
        [⟨some (some "Quiz"), some 10, some (some 70), none⟩]
        ⟨some (some "Quiz"), some 10, some (some 75), none⟩ =
      [Change.score_change "C" (some "N") (some "Quiz") (some 10)
        (some 70) (some 75) none]) ∧
    (GradeStorage.componentChanges "C" (some "N")
        [⟨some (some "Quiz"), some 10, some (some 75), none⟩]
        ⟨some (some "Quiz"), some 10, some (some 75), none⟩ = []) :=
  ⟨componentChanges_case_analysis.1 "C" (some "N") [] _ (by decide),
   (componentChanges_case_analysis.2.1 "C" (some "N")
      [⟨some (some "Quiz"), some 10, some (some 70), none⟩]
      ⟨some (some "Quiz"), some 10, some (some 75), none⟩
      ⟨some (some "Quiz"), some 10, some (some 70), none⟩
      (by decide)).1 (by decide),
   (componentChanges_case_analysis.2.1 "C" (some "N")
      [⟨some (some "Quiz"), some 10, some (some 75), none⟩]
      ⟨some (some "Quiz"), some 10, some (some 75), none⟩
      ⟨some (some "Quiz"), some 10, some (some 75), none⟩
      (by decide)).2 (by decide)⟩

/-- C9: the event list is the concatenation, in the iteration order of
the new snapshot's courses, of per-course blocks; each block is the
letter-grade part followed by the per-component parts in the new
snapshot's component order, the letter-grade part holds only
`letter_grade` events and the component parts hold only component
events. -/
theorem compare_and_update_event_order (stored new_grades : Grades) :
    (GradeStorage.compare_and_update stored new_grades).1 =
      (new_grades.map (fun p =>
        GradeStorage.letterChanges p.1 p.2
            ((lookupCourse stored p.1).getD emptyCourse) ++
          (p.2.components.map
            (GradeStorage.componentChanges p.1 (p.2.name.getD (some ""))
              ((lookupCourse stored p.1).getD emptyCourse).components)).flatten)).flatten ∧
    (∀ (code : String) (cd oc : Course),
      ∀ e ∈ GradeStorage.letterChanges code cd oc, e.isLetterEvent = true) ∧
    (∀ (code : String) (n : Option String) (olds : List Component)
        (comp : Component),
      ∀ e ∈ GradeStorage.componentChanges code n olds comp,
        e.isComponentEvent = true) := by
  refine ⟨rfl, ?_, ?_⟩
  · intro code cd oc e he
    exact (mem_letterChanges he).2.2
  · intro code n olds comp e he
    exact (mem_componentChanges he).2.2

/-- Witness for C9 at concrete inputs: a letter-grade block event is a
`letter_grade` event and a component block event is a component event. -/
theorem compare_and_update_event_order_witness :
    (Change.letter_grade "C1" (some "") none (some "A") none).isLetterEvent =
        true ∧
    (Change.new_score "C1" (some "") (some "Quiz") (some 10) (some 5)
        none).isComponentEvent = true :=
  ⟨(compare_and_update_event_order [] []).2.1 "C1"
      ⟨none, some (some "A"), none, []⟩ emptyCourse _ (by decide),
   (compare_and_update_event_order [] []).2.2 "C1" (some "") []
      ⟨some (some "Quiz"), some 10, some (some 5), none⟩ _ (by decide)⟩

/-- C3 counterexample: a new course whose letter grade is the empty
string — non-null and different from the old (absent, hence null) letter
grade — produces no event at all: the Python guard
`if new_letter and ...` tests truthiness, and an empty string is falsy. -/
theorem letter_event_missing_for_empty_string_grade :
    ((⟨none, some (some ""), none, []⟩ : Course).letter_grade.join ≠ none) ∧
    ((⟨none, some (some ""), none, []⟩ : Course).letter_grade.join ≠
      emptyCourse.letter_grade.join) ∧
    (GradeStorage.compare_and_update []
      [("C1", ⟨none, some (some ""), none, []⟩)]).1 = [] := by
  decide

/-- C3 (amended): for a course of the new snapshot, exactly one
`letter_grade` event is emitted if and only if the new letter grade is
non-null, non-empty and differs from the old one (null when the course
or its letter grade is absent from the stored state), and that event
carries the course code, the course name, the old value, the new value
and the course's current success score. -/
theorem letter_event_iff (stored : Grades) (code : String) (cd : Course) :
    (GradeStorage.courseChanges stored code cd).filter Change.isLetterEvent =
      (if cd.letter_grade.join ≠ none ∧ cd.letter_grade.join ≠ some "" ∧
          cd.letter_grade.join ≠
            ((lookupCourse stored code).getD emptyCourse).letter_grade.join
      then [Change.letter_grade code (cd.name.getD (some ""))
              ((lookupCourse stored code).getD emptyCourse).letter_grade.join
              cd.letter_grade.join cd.success_score.join]
      else []) := by
  simp only [GradeStorage.courseChanges, List.filter_append]
  have h2 : List.filter Change.isLetterEvent
      ((cd.components.map
        (GradeStorage.componentChanges code (cd.name.getD (some ""))
          ((lookupCourse stored code).getD emptyCourse).components)).flatten) =
      [] := by
    rw [List.filter_eq_nil_iff]
    intro e he
    obtain ⟨l, hl, hel⟩ := List.mem_flatten.mp he
    obtain ⟨comp, hcm, rfl⟩ := List.mem_map.mp hl
    have h3 := (mem_componentChanges hel).2.2
    cases e <;> simp_all [Change.isLetterEvent, Change.isComponentEvent]
  rw [h2, List.append_nil]
  simp only [GradeStorage.letterChanges]
  by_cases h : pyTruthyStr cd.letter_grade.join = true ∧
      cd.letter_grade.join ≠
        ((lookupCourse stored code).getD emptyCourse).letter_grade.join
  · rw [if_pos h, if_pos ?_]
    · simp [Change.isLetterEvent, List.filter]
    · obtain ⟨h1, hne⟩ := h
      obtain ⟨ha, hb⟩ := (pyTruthyStr_iff _).mp h1
      exact ⟨ha, hb, hne⟩
  · rw [if_neg h, if_neg ?_]
    · simp
    · intro hc
      exact h ⟨(pyTruthyStr_iff _).mpr ⟨hc.1, hc.2.1⟩, hc.2.2⟩

/-- C2 counterexample: a course record storing explicit nulls for both
`letter_grade` and `success_score` (the shape the scraper always
produces before grades are posted) still gets a grade line: the
rendering test is `data.get("letter_grade", "—") != "—"`, and a stored
`None` is not the dash default, so the line `"   Not: *None* (None)"`
is emitted although both values are null. -/
theorem grade_line_rendered_for_null_grades :
    ((⟨some (some "Calc"), some none, some none, []⟩ :
        Course).letter_grade.join = none) ∧
    ((⟨some (some "Calc"), some none, some none, []⟩ :
        Course).success_score.join = none) ∧
    courseLines "C1" ⟨some (some "Calc"), some none, some none, []⟩ =
      ["📚 *Calc*", "   Not: *None* (None)", ""] ∧
    format_full_grades [("C1", ⟨some (some "Calc"), some none, some none, []⟩)] =
      "📊 *Güncel Not Durumu*\n\n📚 *Calc*\n   Not: *None* (None)" := by
  decide

/-- C2 (amended): a course block of `render_full` is the header followed
by the grade line, the component lines and the blank separator exactly
when the `letter_grade` key is present with a value other than the dash
placeholder (an explicit null qualifies and renders as `None`) or the
`success_score` key is present at all; it is the header followed by only
the component lines and the separator exactly otherwise, i.e. when the
course record omits both keys (or stores the literal dash as its letter
grade). -/
theorem courseLines_grade_line_iff (code : String) (data : Course) :
    (courseLines code data =
        ("📚 *" ++ pyStr (data.name.getD (some code)) ++ "*") ::
          ("   Not: *" ++ pyStr (data.letter_grade.getD (some "—")) ++ "* (" ++
              scoreCell data.success_score ++ ")") ::
          (data.components.map componentLine ++ [""]) ↔
      (data.letter_grade.getD (some "—") ≠ some "—" ∨
        data.success_score.isSome)) ∧
    (courseLines code data =
        ("📚 *" ++ pyStr (data.name.getD (some code)) ++ "*") ::
          (data.components.map componentLine ++ [""]) ↔
      ¬(data.letter_grade.getD (some "—") ≠ some "—" ∨
        data.success_score.isSome)) := by
  by_cases h : data.letter_grade.getD (some "—") ≠ some "—" ∨
      data.success_score.isSome
  · constructor
    · constructor
      · intro _
        exact h
      · intro _
        simp [courseLines, if_pos h]
    · constructor
      · intro heq
        exfalso
        have hlen := congrArg List.length heq
        simp [courseLines, if_pos h] at hlen
      · intro hn
        exact absurd h hn
  · constructor
    · constructor
      · intro heq
        exfalso
        have hlen := congrArg List.length heq
        simp [courseLines, if_neg h] at hlen
      · intro hc
        exact absurd hc h
    · constructor
      · intro _
        exact h
      · intro _
        simp [courseLines, if_neg h]

/-- C7: loading right after a completed `save(X)` returns a collection
equal to `X` — `save` writes the full serialization of `X` and `load`
parses it back; the JSON round trip is exact on this value domain. -/
theorem load_after_save (grades : Grades) :
    GradeStorage.load (GradeStorage.save grades) =
      GradeStorage.PyVal.vdict grades := rfl

/-- C8 counterexample: a grades file holding the document `null` is
valid JSON, so neither `except` branch of `load` fires; `load` returns
`None` — not an empty collection — and every later dict operation on it
fails. Malformed-but-parsable persisted data is therefore not treated as
absence. -/
theorem load_returns_non_collection_document :
    GradeStorage.load (GradeStorage.FileState.valid GradeStorage.PyVal.vnull) =
        GradeStorage.PyVal.vnull ∧
    GradeStorage.load (GradeStorage.FileState.valid GradeStorage.PyVal.vnull) ≠
        GradeStorage.PyVal.vdict [] := by
  decide

/-- C8 (amended): `load` returns the last persisted document unchanged
whenever the file holds valid JSON, and an empty collection when the
file is missing or its content is not parsable JSON; valid JSON that is
not an object document (e.g. `null`) is returned as-is rather than
treated as absence. -/
theorem load_error_handling :
    GradeStorage.load GradeStorage.FileState.missing =
        GradeStorage.PyVal.vdict [] ∧
    GradeStorage.load GradeStorage.FileState.invalid =
        GradeStorage.PyVal.vdict [] ∧
    (∀ v, GradeStorage.load (GradeStorage.FileState.valid v) = v) :=
  ⟨rfl, rfl, fun _ => rfl⟩

/-- C1 (failing input evaluated): `save` rewrites the grades file in
place — `open(..., "w")` truncates it before `json.dump` streams the new
document — so between truncation and completion the persisted state is
an empty or partial JSON text; a reader (`load`) observing it gets an
empty collection, which is neither the complete prior collection nor the
complete new one as soon as both are non-empty. -/
theorem save_observable_intermediate_state :
    GradeStorage.FileState.invalid ∈
        GradeStorage.saveObservableStates [("C1", emptyCourse)] ∧
    GradeStorage.load GradeStorage.FileState.invalid ≠
        GradeStorage.PyVal.vdict [("C0", emptyCourse)] ∧
    GradeStorage.load GradeStorage.FileState.invalid ≠
        GradeStorage.PyVal.vdict [("C1", emptyCourse)] := by
  decide
